import Mathlib

/-!
Shallow embedding of the Fuel_Depot valve and pump models
(src/valve/valve.py and src/pump/pump.py).

Python floats are modelled as real numbers and Python ints as integers.
An argument that may be either an int or a float is a `PyNum`.
Methods that mutate `self` become functions from the state record to a
new state record; methods that can raise, or that return an error string
instead of a number, return `Except`.
-/

noncomputable section

/-- A numeric Python argument: either an int or a float. -/
inductive PyNum where
  | intVal (n : ℤ)
  | floatVal (x : ℝ)

/-- Numeric value of a Python number, as used by numeric comparisons. -/
def PyNum.toReal : PyNum → ℝ
  | .intVal n => (n : ℝ)
  | .floatVal x => x

/-- Error kinds raised by the pump methods. -/
inductive PyErr where
  | typeError (msg : String)
  | valueError (msg : String)
  | zeroDivisionError

/-- State of `Valve` from src/valve/valve.py. -/
structure Valve where
  name : String
  position : ℤ
  Cv : ℝ
  flow_in : ℝ
  deltaP : ℝ
  flow_out : ℝ
  setpoint_open : ℝ
  setpoint_close : ℝ
  press_out : ℝ
  press_in : ℝ

/-- `Valve.press_drop`: on `Cv == 0` the float division raises
`ZeroDivisionError`, which the method catches, returning the string
"The valve coefficient must be > 0." and leaving `deltaP` unchanged;
otherwise it stores and returns `(flow_in / Cv) ** 2 * spec_grav`. -/
def Valve.press_drop (v : Valve) (flow_in spec_grav : ℝ) : Valve × Except String ℝ :=
  if v.Cv = 0 then (v, Except.error "The valve coefficient must be > 0.")
  else
    ({ v with deltaP := (flow_in / v.Cv) ^ 2 * spec_grav },
     Except.ok ((flow_in / v.Cv) ^ 2 * spec_grav))

/-- `Valve.sys_flow_rate`: raises `ValueError` when `flow_coeff ≤ 0` or
`press_drop ≤ 0`; otherwise stores
`flow_coeff / sqrt (spec_grav / press_drop)` into `flow_out`. -/
def Valve.sys_flow_rate (v : Valve) (flow_coeff press_drop spec_grav : ℝ) :
    Except String Valve :=
  if flow_coeff ≤ 0 ∨ press_drop ≤ 0 then Except.error "Input values must be > 0."
  else Except.ok { v with flow_out := flow_coeff / Real.sqrt (spec_grav / press_drop) }

/-- `Valve.change_position`: a non-int argument raises `TypeError`, which is
caught and the string "Integer values only." returned, the position left
unchanged; an int argument is stored with no range check. -/
def Valve.change_position (v : Valve) (new_position : PyNum) : Valve × Option String :=
  match new_position with
  | .intVal n => ({ v with position := n }, none)
  | .floatVal _ => (v, some "Integer values only.")

/-- `Valve.open`: sets the position to 100 via `change_position`. -/
def Valve.«open» (v : Valve) : Valve :=
  (Valve.change_position v (PyNum.intVal 100)).1

/-- `Valve.close`: sets the position to 0 via `change_position`. -/
def Valve.close (v : Valve) : Valve :=
  (Valve.change_position v (PyNum.intVal 0)).1

/-- `Gate.turn_handle`: 0 closes, 100 opens, anything else returns a warning
string with the state untouched. -/
def Gate.turn_handle (v : Valve) (new_position : PyNum) : Valve × Option String :=
  if new_position.toReal = 0 then (Valve.close v, none)
  else if new_position.toReal = 100 then (Valve.«open» v, none)
  else (v, some "Warning: Invalid valve position.")

/-- `Globe.turn_handle`: calls `change_position` (discarding its returned
warning string), then, reading the possibly-unchanged position: at 0 it
zeroes `flow_out` and `deltaP`; otherwise it recomputes
`flow_out = flow_in + flow_in * position / 100` and calls `press_drop`
on it with the default specific gravity 1. -/
def Globe.turn_handle (v : Valve) (new_position : PyNum) : Valve :=
  let v1 := (Valve.change_position v new_position).1
  if v1.position = 0 then { v1 with flow_out := 0, deltaP := 0 }
  else
    let fo := v1.flow_in + v1.flow_in * (v1.position : ℝ) / 100
    (Valve.press_drop { v1 with flow_out := fo } fo 1).1

/-- `Relief.valve_operation`: opens when `press_in ≥ setpoint_open`, else
closes when `press_in ≤ setpoint_close`, else leaves the valve alone. -/
def Relief.valve_operation (v : Valve) (press_in : ℝ) : Valve :=
  if v.setpoint_open ≤ press_in then Valve.«open» v
  else if press_in ≤ v.setpoint_close then Valve.close v
  else v

/-- State of `Pump` from src/pump/pump.py. -/
structure Pump where
  name : String
  flow_rate : ℝ
  head : ℝ
  outlet_pressure : ℝ
  speed : ℤ
  hp : ℝ
  displacement : ℝ
  hp_coeff : ℝ
  wattage : ℝ

/-- `Pump.hp_to_watts`: fixed-constant horsepower-to-watt conversion. -/
def Pump.hp_to_watts (hp : ℝ) : ℝ := hp * 745.699872

/-- `Pump.set_speed`: raises `TypeError` on a non-int argument and
`ValueError` on a negative one; otherwise returns the new speed. -/
def Pump.set_speed (new_speed : PyNum) : Except PyErr ℤ :=
  match new_speed with
  | .floatVal _ => Except.error (PyErr.typeError "Integer values only.")
  | .intVal n =>
      if n < 0 then Except.error (PyErr.valueError "Speed must be 0 or greater.")
      else Except.ok n

/-- `CentrifPump.pump_laws`: validates the new speed, then scales flow,
outlet pressure and shaft power by the affinity-law powers of
`new_speed / old_speed`, raising `ZeroDivisionError` at the first
division when the old speed is 0 (no pump field is updated in that
case), and recomputes the wattage from the new shaft power. -/
def CentrifPump.pump_laws (p : Pump) (new_speed : PyNum) : Except PyErr Pump :=
  match Pump.set_speed new_speed with
  | .error e => Except.error e
  | .ok n2 =>
      if p.speed = 0 then Except.error PyErr.zeroDivisionError
      else
        Except.ok
          { p with
            flow_rate := p.flow_rate * ((n2 : ℝ) / (p.speed : ℝ)),
            outlet_pressure := p.outlet_pressure * ((n2 : ℝ) / (p.speed : ℝ)) ^ 2,
            hp := p.hp * ((n2 : ℝ) / (p.speed : ℝ)) ^ 3,
            speed := n2,
            wattage := Pump.hp_to_watts (p.hp * ((n2 : ℝ) / (p.speed : ℝ)) ^ 3) }

/-- `CentrifPump.adjust_speed` delegates the whole update to `pump_laws`. -/
def CentrifPump.adjust_speed (p : Pump) (new_speed : PyNum) : Except PyErr Pump :=
  CentrifPump.pump_laws p new_speed

/-- `PositiveDisplacement.adjust_speed` of src/pump/pump.py: validates the new speed, then sets
`flow_rate = speed * displacement`, `hp = speed * hp_coeff`, and the
wattage from the new shaft power; no ratio to the previous speed. -/
def PositiveDisplacement.adjust_speed (p : Pump) (new_speed : PyNum) :
    Except PyErr Pump :=
  match Pump.set_speed new_speed with
  | .error e => Except.error e
  | .ok n =>
      Except.ok
        { p with
          speed := n,
          flow_rate := (n : ℝ) * p.displacement,
          hp := (n : ℝ) * p.hp_coeff,
          wattage := Pump.hp_to_watts ((n : ℝ) * p.hp_coeff) }

/-! Branch lemmas for the embedded methods. -/

theorem Valve.press_drop_of_ne (v : Valve) (fi sg : ℝ) (h : v.Cv ≠ 0) :
    Valve.press_drop v fi sg =
      ({ v with deltaP := (fi / v.Cv) ^ 2 * sg },
       Except.ok ((fi / v.Cv) ^ 2 * sg)) := by
  unfold Valve.press_drop
  rw [if_neg h]

theorem Valve.press_drop_of_eq (v : Valve) (fi sg : ℝ) (h : v.Cv = 0) :
    Valve.press_drop v fi sg =
      (v, Except.error "The valve coefficient must be > 0.") := by
  unfold Valve.press_drop
  rw [if_pos h]

theorem Pump.set_speed_int_of_nonneg (n : ℤ) (hn : 0 ≤ n) :
    Pump.set_speed (PyNum.intVal n) = Except.ok n := by
  unfold Pump.set_speed
  dsimp only
  rw [if_neg (not_lt.mpr hn)]

theorem Valve.press_drop_fst_position (v : Valve) (fi sg : ℝ) :
    ((Valve.press_drop v fi sg).1).position = v.position := by
  by_cases h : v.Cv = 0
  · rw [Valve.press_drop_of_eq v fi sg h]
  · rw [Valve.press_drop_of_ne v fi sg h]

theorem Valve.press_drop_fst_flow_out (v : Valve) (fi sg : ℝ) :
    ((Valve.press_drop v fi sg).1).flow_out = v.flow_out := by
  by_cases h : v.Cv = 0
  · rw [Valve.press_drop_of_eq v fi sg h]
  · rw [Valve.press_drop_of_ne v fi sg h]

theorem Valve.press_drop_fst_deltaP (v : Valve) (fi sg : ℝ) :
    ((Valve.press_drop v fi sg).1).deltaP =
      if v.Cv = 0 then v.deltaP else (fi / v.Cv) ^ 2 * sg := by
  by_cases h : v.Cv = 0
  · rw [Valve.press_drop_of_eq v fi sg h, if_pos h]
  · rw [Valve.press_drop_of_ne v fi sg h, if_neg h]

theorem Globe.turn_handle_int (v : Valve) (n : ℤ) :
    Globe.turn_handle v (PyNum.intVal n) =
      if n = 0 then { v with position := 0, flow_out := 0, deltaP := 0 }
      else
        (Valve.press_drop
          { v with position := n,
                   flow_out := v.flow_in + v.flow_in * (n : ℝ) / 100 }
          (v.flow_in + v.flow_in * (n : ℝ) / 100) 1).1 := by
  unfold Globe.turn_handle Valve.change_position
  dsimp only
  by_cases h : n = 0
  · subst h
    rw [if_pos rfl]
  · rw [if_neg h, if_neg h]

theorem Globe.turn_handle_float (v : Valve) (x : ℝ) :
    Globe.turn_handle v (PyNum.floatVal x) =
      if v.position = 0 then { v with flow_out := 0, deltaP := 0 }
      else
        (Valve.press_drop
          { v with flow_out := v.flow_in + v.flow_in * (v.position : ℝ) / 100 }
          (v.flow_in + v.flow_in * (v.position : ℝ) / 100) 1).1 := by
  unfold Globe.turn_handle Valve.change_position
  dsimp only

theorem Relief.valve_operation_of_ge (v : Valve) (pin : ℝ)
    (h : v.setpoint_open ≤ pin) :
    Relief.valve_operation v pin = { v with position := 100 } := by
  unfold Relief.valve_operation
  rw [if_pos h]
  rfl

theorem Relief.valve_operation_of_le (v : Valve) (pin : ℝ)
    (h1 : pin < v.setpoint_open) (h2 : pin ≤ v.setpoint_close) :
    Relief.valve_operation v pin = { v with position := 0 } := by
  unfold Relief.valve_operation
  rw [if_neg (not_le.mpr h1), if_pos h2]
  rfl

theorem Relief.valve_operation_of_mid (v : Valve) (pin : ℝ)
    (h1 : pin < v.setpoint_open) (h2 : v.setpoint_close < pin) :
    Relief.valve_operation v pin = v := by
  unfold Relief.valve_operation
  rw [if_neg (not_le.mpr h1), if_neg (not_le.mpr h2)]

/-! Concrete states used by witnesses and counterexamples.  Valve fields,
in order: name, position, Cv, flow_in, deltaP, flow_out, setpoint_open,
setpoint_close, press_out, press_in.  Pump fields, in order: name,
flow_rate, head, outlet_pressure, speed, hp, displacement, hp_coeff,
wattage. -/

def vW : Valve := ⟨"v", 0, 2, 0, 0, 0, 0, 0, 0, 0⟩

def unitCvV : Valve := ⟨"u", 0, 1, 0, 0, 5, 0, 0, 0, 0⟩

def cvZeroV : Valve := ⟨"z", 0, 0, 0, 3, 7, 0, 0, 0, 0⟩

def gW : Valve := ⟨"globeW", 0, 2, 50, 0, 0, 0, 0, 0, 0⟩

def gvC : Valve := ⟨"globeC", 50, 1, 50, 0, 0, 0, 0, 0, 0⟩

def gateV : Valve := ⟨"gate", 0, 0, 0, 0, 0, 0, 0, 0, 0⟩

def reliefV : Valve := ⟨"relief", 0, 0, 0, 0, 0, 150, 125, 0, 0⟩

def overlapV : Valve := ⟨"overlap", 0, 0, 0, 0, 0, 100, 200, 0, 0⟩

def cpV : Valve := ⟨"cp", 42, 0, 0, 0, 0, 0, 0, 0, 0⟩

def cpumpW : Pump := ⟨"cpump", 75, 0, 7.5, 1750, 2, 0, 0, 0⟩

def stoppedPump : Pump := ⟨"stopped", 10, 0, 10, 0, 5, 0, 0, 0⟩

def pdW : Pump := ⟨"pd", 0, 0, 0, 75, 0, 0.096, 0.5, 0⟩

/-! Claim theorems. -/

/-- C6: `press_drop` called when `Cv == 0` surfaces the division-by-zero
failure to the caller as the error string (the state, in particular
`deltaP`, is untouched), and the result is distinguishable from a normal
zero-drop `Except.ok 0` result. -/
theorem press_drop_zero_cv_error (v : Valve) (fi sg : ℝ) (h : v.Cv = 0) :
    Valve.press_drop v fi sg =
      (v, Except.error "The valve coefficient must be > 0.") ∧
    (Valve.press_drop v fi sg).2 ≠ Except.ok (0 : ℝ) := by
  have h1 := Valve.press_drop_of_eq v fi sg h
  refine ⟨h1, ?_⟩
  rw [h1]
  simp

/-- C6 witness: the failure at a concrete valve with `Cv = 0`. -/
theorem press_drop_zero_cv_error_witness :
    cvZeroV.Cv = 0 ∧
    (Valve.press_drop cvZeroV 100 1 =
       (cvZeroV, Except.error "The valve coefficient must be > 0.") ∧
     (Valve.press_drop cvZeroV 100 1).2 ≠ Except.ok (0 : ℝ)) :=
  ⟨rfl, press_drop_zero_cv_error cvZeroV 100 1 rfl⟩

/-- C7 (amended): `change_position` rejects a non-integer argument with the
message "Integer values only.", leaving the position unchanged, but it
accepts every integer argument — including out-of-range ones — and stores
it without any clamping or range check. -/
theorem change_position_no_range_check (v : Valve) (n : ℤ) (x : ℝ) :
    Valve.change_position v (PyNum.intVal n) = ({ v with position := n }, none) ∧
    Valve.change_position v (PyNum.floatVal x) = (v, some "Integer values only.") :=
  ⟨rfl, rfl⟩

/-- C7 counterexample: `change_position` called with `-10` does not fail —
it succeeds with no error and leaves the valve with `position = -10`,
violating the claimed `[0, 100]` validation. -/
theorem change_position_accepts_negative :
    Valve.change_position cpV (PyNum.intVal (-10)) =
      ({ cpV with position := -10 }, none) ∧
    (Valve.change_position cpV (PyNum.intVal (-10))).1.position = -10 :=
  ⟨rfl, rfl⟩

/-- C9: a centrifugal-pump speed change from a stopped state (old speed 0)
with any valid new speed fails with `ZeroDivisionError`, reported to the
caller; no pump state is produced, so no `NaN`/`Inf` fields can appear. -/
theorem centrif_adjust_speed_zero_old_speed (p : Pump) (n : ℤ)
    (hn : 0 ≤ n) (h0 : p.speed = 0) :
    CentrifPump.adjust_speed p (PyNum.intVal n) =
      Except.error PyErr.zeroDivisionError := by
  unfold CentrifPump.adjust_speed CentrifPump.pump_laws
  rw [Pump.set_speed_int_of_nonneg n hn]
  dsimp only
  rw [if_pos h0]

/-- C9 witness: the failure at a concrete stopped pump and new speed 100. -/
theorem centrif_adjust_speed_zero_old_speed_witness :
    (0 : ℤ) ≤ 100 ∧ stoppedPump.speed = 0 ∧
    CentrifPump.adjust_speed stoppedPump (PyNum.intVal 100) =
      Except.error PyErr.zeroDivisionError :=
  ⟨by norm_num, rfl,
   centrif_adjust_speed_zero_old_speed stoppedPump 100 (by norm_num) rfl⟩

/-- C10: when the relief-valve thresholds overlap and the inlet pressure
satisfies both transition conditions, `valve_operation` opens the valve —
the open-threshold check takes priority over the close-threshold check. -/
theorem relief_open_priority (v : Valve) (pr : ℝ)
    (hov : v.setpoint_open ≤ v.setpoint_close)
    (h1 : v.setpoint_open ≤ pr) (h2 : pr ≤ v.setpoint_close) :
    (Relief.valve_operation v pr).position = 100 := by
  unfold Relief.valve_operation
  rw [if_pos h1]
  rfl

/-- C10 witness: setpoints 100/200 (overlapping) and inlet pressure 150. -/
theorem relief_open_priority_witness :
    overlapV.setpoint_open ≤ overlapV.setpoint_close ∧
    overlapV.setpoint_open ≤ (150 : ℝ) ∧ (150 : ℝ) ≤ overlapV.setpoint_close ∧
    (Relief.valve_operation overlapV 150).position = 100 :=
  ⟨by norm_num [overlapV], by norm_num [overlapV], by norm_num [overlapV],
   relief_open_priority overlapV 150 (by norm_num [overlapV])
     (by norm_num [overlapV]) (by norm_num [overlapV])⟩

/-- C5: a positive-displacement speed change to a valid speed `n` sets
`flow_rate = n * displacement`, `hp = n * hp_coeff` and `speed = n`, with
the wattage recomputed; the result does not depend on the prior speed. -/
theorem pd_adjust_speed_linear (p : Pump) (n : ℤ) (hn : 0 ≤ n) :
    PositiveDisplacement.adjust_speed p (PyNum.intVal n) =
      Except.ok
        { p with
          speed := n,
          flow_rate := (n : ℝ) * p.displacement,
          hp := (n : ℝ) * p.hp_coeff,
          wattage := Pump.hp_to_watts ((n : ℝ) * p.hp_coeff) } := by
  unfold PositiveDisplacement.adjust_speed
  rw [Pump.set_speed_int_of_nonneg n hn]

/-- C5 witness: with `displacement = 0.096` a speed change to 100 yields
`flow_rate = 100 * 0.096 = 9.6`. -/
theorem pd_adjust_speed_linear_witness :
    (0 : ℤ) ≤ 100 ∧
    PositiveDisplacement.adjust_speed pdW (PyNum.intVal 100) =
      Except.ok
        { pdW with
          speed := 100,
          flow_rate := (100 : ℝ) * pdW.displacement,
          hp := (100 : ℝ) * pdW.hp_coeff,
          wattage := Pump.hp_to_watts ((100 : ℝ) * pdW.hp_coeff) } ∧
    (100 : ℝ) * pdW.displacement = 9.6 :=
  ⟨by norm_num, pd_adjust_speed_linear pdW 100 (by norm_num),
   by norm_num [pdW]⟩

/-- C1 (amended): for `Cv > 0` and flow strictly positive, `press_drop`
returns `ΔP = (flow / Cv)² * 1` and `sys_flow_rate` with the same `Cv`
and that `ΔP` sets `flow_out` to exactly the original flow. -/
theorem press_drop_roundtrip (v : Valve) (q : ℝ) (hCv : 0 < v.Cv) (hq : 0 < q) :
    (Valve.press_drop v q 1).2 = Except.ok ((q / v.Cv) ^ 2 * 1) ∧
    Valve.sys_flow_rate (Valve.press_drop v q 1).1 v.Cv ((q / v.Cv) ^ 2 * 1) 1 =
      Except.ok { (Valve.press_drop v q 1).1 with flow_out := q } := by
  have hCv' : v.Cv ≠ 0 := hCv.ne'
  have hd : (0 : ℝ) < (q / v.Cv) ^ 2 * 1 := by positivity
  constructor
  · rw [Valve.press_drop_of_ne v q 1 hCv']
  · unfold Valve.sys_flow_rate
    rw [if_neg (by push_neg; exact ⟨hCv, hd⟩)]
    have hs : (1 : ℝ) / ((q / v.Cv) ^ 2 * 1) = (v.Cv / q) ^ 2 := by
      rw [mul_one, one_div, ← inv_pow, inv_div]
    rw [show v.Cv / Real.sqrt (1 / ((q / v.Cv) ^ 2 * 1)) = q by
      rw [hs, Real.sqrt_sq (div_nonneg hCv.le hq.le), div_div_eq_mul_div,
        mul_div_cancel_left₀ q hCv']]

/-- C1 witness: the round trip at a concrete valve with `Cv = 2`, flow 3. -/
theorem press_drop_roundtrip_witness :
    (0 : ℝ) < vW.Cv ∧ (0 : ℝ) < 3 ∧
    ((Valve.press_drop vW 3 1).2 = Except.ok ((3 / vW.Cv) ^ 2 * 1) ∧
     Valve.sys_flow_rate (Valve.press_drop vW 3 1).1 vW.Cv ((3 / vW.Cv) ^ 2 * 1) 1 =
       Except.ok { (Valve.press_drop vW 3 1).1 with flow_out := 3 }) :=
  ⟨by norm_num [vW], by norm_num,
   press_drop_roundtrip vW 3 (by norm_num [vW]) (by norm_num)⟩

/-- C1 counterexample: at a valve with `Cv = 1 > 0` and flow `0 ≥ 0`,
`press_drop` returns `ΔP = 0` and the follow-up `sys_flow_rate` call
raises `ValueError` instead of setting `flow_out` to the original flow,
so the round trip fails at flow `0`. -/
theorem press_drop_roundtrip_fails_at_zero_flow :
    (0 : ℝ) ≤ 0 ∧ 0 < unitCvV.Cv ∧
    (Valve.press_drop unitCvV 0 1).2 = Except.ok 0 ∧
    Valve.sys_flow_rate (Valve.press_drop unitCvV 0 1).1 unitCvV.Cv 0 1 =
      Except.error "Input values must be > 0." := by
  refine ⟨le_refl 0, by norm_num [unitCvV], ?_, ?_⟩
  · rw [Valve.press_drop_of_ne unitCvV 0 1 (by norm_num [unitCvV])]
    norm_num
  · unfold Valve.sys_flow_rate
    rw [if_pos (Or.inr (le_refl (0 : ℝ)))]

/-- C2: a globe-valve `turn_handle` with an integer target sets the
position; at position 0 it forces `flow_out` and `deltaP` to exactly 0,
otherwise `flow_out = flow_in * (1 + position / 100)` and `deltaP` is
refreshed through `press_drop` on the new `flow_out` (left unchanged when
that call fails on `Cv = 0`). -/
theorem globe_turn_handle_spec (v : Valve) (n : ℤ) :
    ((Globe.turn_handle v (PyNum.intVal n)).position = n) ∧
    (n = 0 →
      (Globe.turn_handle v (PyNum.intVal n)).flow_out = 0 ∧
      (Globe.turn_handle v (PyNum.intVal n)).deltaP = 0) ∧
    (n ≠ 0 →
      (Globe.turn_handle v (PyNum.intVal n)).flow_out
          = v.flow_in * (1 + (n : ℝ) / 100) ∧
      (Globe.turn_handle v (PyNum.intVal n)).deltaP
          = if v.Cv = 0 then v.deltaP
            else (v.flow_in * (1 + (n : ℝ) / 100) / v.Cv) ^ 2 * 1) := by
  rw [Globe.turn_handle_int]
  have hfo : v.flow_in + v.flow_in * (n : ℝ) / 100
      = v.flow_in * (1 + (n : ℝ) / 100) := by ring
  by_cases h : n = 0
  · subst h
    rw [if_pos rfl]
    exact ⟨rfl, fun _ => ⟨rfl, rfl⟩, fun hn => absurd rfl hn⟩
  · rw [if_neg h]
    refine ⟨?_, fun h0 => absurd h0 h, fun _ => ⟨?_, ?_⟩⟩
    · rw [Valve.press_drop_fst_position]
    · rw [Valve.press_drop_fst_flow_out]
      exact hfo
    · rw [Valve.press_drop_fst_deltaP]
      dsimp only
      rw [hfo]

/-- C2 witness: a globe valve with `flow_in = 50`, `Cv = 2`, turned to 50:
`flow_out = 50 * (1 + 50/100) = 75` and `deltaP` comes from `press_drop`. -/
theorem globe_turn_handle_spec_witness :
    (50 : ℤ) ≠ 0 ∧
    ((Globe.turn_handle gW (PyNum.intVal 50)).flow_out
        = gW.flow_in * (1 + ((50 : ℤ) : ℝ) / 100) ∧
     (Globe.turn_handle gW (PyNum.intVal 50)).deltaP
        = if gW.Cv = 0 then gW.deltaP
          else (gW.flow_in * (1 + ((50 : ℤ) : ℝ) / 100) / gW.Cv) ^ 2 * 1) ∧
    gW.flow_in * (1 + ((50 : ℤ) : ℝ) / 100) = 75 :=
  ⟨by norm_num, (globe_turn_handle_spec gW 50).2.2 (by norm_num),
   by norm_num [gW]⟩

/-- C3: relief-valve `valve_operation` opens at or above the open
setpoint, closes at or below the close setpoint, leaves the state alone
strictly between them, never produces an intermediate position from
`{0, 100}`, and the open 150 / close 125 scenario (150 opens, 140 keeps
open, 125 closes, 130 keeps closed) holds. -/
theorem relief_valve_operation_spec (v : Valve) (pr : ℝ) :
    (v.setpoint_open ≤ pr → (Relief.valve_operation v pr).position = 100) ∧
    (pr < v.setpoint_open → pr ≤ v.setpoint_close →
      (Relief.valve_operation v pr).position = 0) ∧
    (pr < v.setpoint_open → v.setpoint_close < pr →
      Relief.valve_operation v pr = v) ∧
    ((v.position = 0 ∨ v.position = 100) →
      ((Relief.valve_operation v pr).position = 0 ∨
       (Relief.valve_operation v pr).position = 100)) ∧
    ((Relief.valve_operation reliefV 150).position = 100 ∧
     (Relief.valve_operation (Relief.valve_operation reliefV 150) 140).position
        = 100 ∧
     (Relief.valve_operation (Relief.valve_operation
        (Relief.valve_operation reliefV 150) 140) 125).position = 0 ∧
     (Relief.valve_operation (Relief.valve_operation (Relief.valve_operation
        (Relief.valve_operation reliefV 150) 140) 125) 130).position = 0) := by
  have s1 : Relief.valve_operation reliefV 150 = { reliefV with position := 100 } :=
    Relief.valve_operation_of_ge _ _ (by norm_num [reliefV])
  have s2 : Relief.valve_operation { reliefV with position := 100 } 140
      = { reliefV with position := 100 } :=
    Relief.valve_operation_of_mid _ _ (by norm_num [reliefV]) (by norm_num [reliefV])
  have s3 : Relief.valve_operation { reliefV with position := 100 } 125
      = { reliefV with position := 0 } :=
    Relief.valve_operation_of_le _ _ (by norm_num [reliefV]) (by norm_num [reliefV])
  have s4 : Relief.valve_operation { reliefV with position := 0 } 130
      = { reliefV with position := 0 } :=
    Relief.valve_operation_of_mid _ _ (by norm_num [reliefV]) (by norm_num [reliefV])
  refine ⟨?_, ?_, ?_, ?_, ?_⟩
  · intro h
    rw [Relief.valve_operation_of_ge _ _ h]
  · intro h1 h2
    rw [Relief.valve_operation_of_le _ _ h1 h2]
  · intro h1 h2
    exact Relief.valve_operation_of_mid _ _ h1 h2
  · intro hpos
    by_cases hge : v.setpoint_open ≤ pr
    · right
      rw [Relief.valve_operation_of_ge _ _ hge]
    · by_cases hle : pr ≤ v.setpoint_close
      · left
        rw [Relief.valve_operation_of_le _ _ (not_le.mp hge) hle]
      · rw [Relief.valve_operation_of_mid _ _ (not_le.mp hge) (not_le.mp hle)]
        exact hpos
  · rw [s1, s2, s3, s4]
    exact ⟨rfl, rfl, rfl, rfl⟩

/-- C3 witness: feeding pressure 150 to the concrete 150/125 relief valve
opens it. -/
theorem relief_valve_operation_spec_witness :
    reliefV.setpoint_open ≤ (150 : ℝ) ∧
    (Relief.valve_operation reliefV 150).position = 100 :=
  ⟨by norm_num [reliefV],
   (relief_valve_operation_spec reliefV 150).1 (by norm_num [reliefV])⟩

/-- C4: a centrifugal-pump speed change from old speed `> 0` to a valid
speed `n` scales flow by the speed ratio, pressure by its square and
shaft power by its cube, sets the new speed, and recomputes the wattage
from the new shaft power, all in one state update. -/
theorem centrif_pump_laws_spec (p : Pump) (n : ℤ)
    (hold : 0 < p.speed) (hn : 0 ≤ n) :
    CentrifPump.pump_laws p (PyNum.intVal n) =
      Except.ok
        { p with
          flow_rate := p.flow_rate * ((n : ℝ) / (p.speed : ℝ)),
          outlet_pressure := p.outlet_pressure * ((n : ℝ) / (p.speed : ℝ)) ^ 2,
          hp := p.hp * ((n : ℝ) / (p.speed : ℝ)) ^ 3,
          speed := n,
          wattage := Pump.hp_to_watts (p.hp * ((n : ℝ) / (p.speed : ℝ)) ^ 3) } := by
  unfold CentrifPump.pump_laws
  rw [Pump.set_speed_int_of_nonneg n hn]
  dsimp only
  rw [if_neg hold.ne']

/-- C4 witness: the pump at speed 1750, flow 75, pressure 7.5, changed to
speed 100; the new flow and pressure are the §8 ratio values. -/
theorem centrif_pump_laws_spec_witness :
    (0 : ℤ) < cpumpW.speed ∧ (0 : ℤ) ≤ 100 ∧
    CentrifPump.pump_laws cpumpW (PyNum.intVal 100) =
      Except.ok
        { cpumpW with
          flow_rate := cpumpW.flow_rate * (((100 : ℤ) : ℝ) / (cpumpW.speed : ℝ)),
          outlet_pressure :=
            cpumpW.outlet_pressure * (((100 : ℤ) : ℝ) / (cpumpW.speed : ℝ)) ^ 2,
          hp := cpumpW.hp * (((100 : ℤ) : ℝ) / (cpumpW.speed : ℝ)) ^ 3,
          speed := 100,
          wattage := Pump.hp_to_watts
            (cpumpW.hp * (((100 : ℤ) : ℝ) / (cpumpW.speed : ℝ)) ^ 3) } ∧
    cpumpW.flow_rate * (((100 : ℤ) : ℝ) / (cpumpW.speed : ℝ))
        = 75 * (100 / 1750) ∧
    cpumpW.outlet_pressure * (((100 : ℤ) : ℝ) / (cpumpW.speed : ℝ)) ^ 2
        = 7.5 * (100 / 1750) ^ 2 :=
  ⟨by norm_num [cpumpW], by norm_num,
   centrif_pump_laws_spec cpumpW 100 (by norm_num [cpumpW]) (by norm_num),
   by norm_num [cpumpW], by norm_num [cpumpW]⟩

/-- C8 (amended): a gate-valve `turn_handle` with a target other than 0 or
100 returns the warning string and leaves the state unchanged; a
globe-valve `turn_handle` with a non-integer target does not raise and
leaves the position unchanged, but it does not report the rejection and
it still recomputes `flow_out` and `deltaP` from the old position (zeroing
them when the position is 0). -/
theorem rejected_operate_behavior (v : Valve) (p : PyNum) (x : ℝ)
    (h0 : p.toReal ≠ 0) (h100 : p.toReal ≠ 100) :
    Gate.turn_handle v p = (v, some "Warning: Invalid valve position.") ∧
    (Globe.turn_handle v (PyNum.floatVal x)).position = v.position ∧
    (v.position = 0 →
      Globe.turn_handle v (PyNum.floatVal x) = { v with flow_out := 0, deltaP := 0 }) ∧
    (v.position ≠ 0 →
      (Globe.turn_handle v (PyNum.floatVal x)).flow_out
        = v.flow_in + v.flow_in * (v.position : ℝ) / 100) := by
  refine ⟨?_, ?_, ?_, ?_⟩
  · unfold Gate.turn_handle
    rw [if_neg h0, if_neg h100]
  · rw [Globe.turn_handle_float]
    by_cases hp0 : v.position = 0
    · rw [if_pos hp0]
    · rw [if_neg hp0, Valve.press_drop_fst_position]
  · intro hp0
    rw [Globe.turn_handle_float, if_pos hp0]
  · intro hp0
    rw [Globe.turn_handle_float, if_neg hp0, Valve.press_drop_fst_flow_out]

/-- C8 witness: the gate valve rejects target 50 with the warning and is
unchanged; the closed globe valve fed the non-integer 12.5 keeps its
position and has its flow and drop zeroed from the old position 0. -/
theorem rejected_operate_behavior_witness :
    (PyNum.intVal 50).toReal ≠ 0 ∧ (PyNum.intVal 50).toReal ≠ 100 ∧
    Gate.turn_handle gateV (PyNum.intVal 50) =
      (gateV, some "Warning: Invalid valve position.") ∧
    (Globe.turn_handle gateV (PyNum.floatVal (25 / 2))).position = gateV.position ∧
    Globe.turn_handle gateV (PyNum.floatVal (25 / 2)) =
      { gateV with flow_out := 0, deltaP := 0 } :=
  ⟨by norm_num [PyNum.toReal], by norm_num [PyNum.toReal],
   (rejected_operate_behavior gateV (PyNum.intVal 50) (25 / 2)
      (by norm_num [PyNum.toReal]) (by norm_num [PyNum.toReal])).1,
   (rejected_operate_behavior gateV (PyNum.intVal 50) (25 / 2)
      (by norm_num [PyNum.toReal]) (by norm_num [PyNum.toReal])).2.1,
   (rejected_operate_behavior gateV (PyNum.intVal 50) (25 / 2)
      (by norm_num [PyNum.toReal]) (by norm_num [PyNum.toReal])).2.2.1 rfl⟩

/-- C8 counterexample: a globe valve at position 50 with `flow_in = 50`,
`Cv = 1`, stale `flow_out = 0`, `deltaP = 0`, fed the rejected non-integer
target 12.5: the call mutates `flow_out` to 75 and `deltaP` to 5625, so a
rejected operator action does not leave the prior state unchanged. -/
theorem globe_turn_handle_noninteger_mutates_state :
    (Globe.turn_handle gvC (PyNum.floatVal (25 / 2))).flow_out = 75 ∧
    gvC.flow_out = 0 ∧
    (Globe.turn_handle gvC (PyNum.floatVal (25 / 2))).deltaP = 5625 ∧
    gvC.deltaP = 0 := by
  have h1 : Globe.turn_handle gvC (PyNum.floatVal (25 / 2)) =
      (Valve.press_drop
        { gvC with flow_out := gvC.flow_in + gvC.flow_in * (gvC.position : ℝ) / 100 }
        (gvC.flow_in + gvC.flow_in * (gvC.position : ℝ) / 100) 1).1 := by
    rw [Globe.turn_handle_float, if_neg (by norm_num [gvC])]
  rw [h1, Valve.press_drop_of_ne _ _ _ (by norm_num [gvC])]
  refine ⟨by norm_num [gvC], rfl, by norm_num [gvC], rfl⟩

end
